import Mathlib

/-!
Shallow embedding of `rootston/xdg_shell_v6.c` (wlroots, rootston compositor):
the xdg-shell-v6 view adapter, its geometry constraint solver, the
move/resize configure-serial state machine, the surface-commit
reconciliation handler, and the popup lifecycle wiring.

Machine integers: the C sizes and serials are `uint32_t`; all operations
performed on them here are comparisons and copies, so they are modelled as
`Nat`. Positions (`double` in C, holding integer-valued window coordinates)
are modelled as `Int`; the C arithmetic `x + width - constrained_width` is
performed in `double` (no unsigned wraparound), which `Int` matches exactly
for these integer values.
-/

namespace XdgShellV6

/-- Role of an xdg surface, `enum wlr_xdg_surface_v6_role`. -/
inductive Role where
  | roleNone
  | toplevel
  | popup
deriving DecidableEq, Repr

/-- The fields of `struct wlr_xdg_toplevel_v6_state` this module reads:
size bounds and the maximized/fullscreen flags. -/
structure wlr_xdg_toplevel_v6_state where
  min_width : Nat
  min_height : Nat
  max_width : Nat
  max_height : Nat
  maximized : Bool
  fullscreen : Bool
deriving DecidableEq, Repr

/-- `struct wlr_box`, the width/height part used by `get_size`
(C `int` fields). -/
structure wlr_box where
  width : Int
  height : Int
deriving DecidableEq, Repr

/-- The fields of `struct wlr_xdg_surface_v6` (and the `wlr_surface` it
owns) that this module reads. `configure_serial` is the serial of the last
configure the client has acknowledged (committed). `wlr_surface_current`
is the committed buffer size of `view->wlr_surface`, `none` when
`view->wlr_surface == NULL`. `popups` are identifiers of the entries of
`surface->popups`. -/
structure wlr_xdg_surface_v6 where
  role : Role
  current : wlr_xdg_toplevel_v6_state
  client_pending : wlr_xdg_toplevel_v6_state
  configure_serial : Nat
  mapped : Bool
  geometry : wlr_box
  wlr_surface_current : Option wlr_box
  popups : List Nat
deriving DecidableEq, Repr

/-- `view->pending_move_resize` record on `struct roots_view`. -/
structure pending_move_resize_state where
  update_x : Bool
  update_y : Bool
  x : Int
  y : Int
  width : Nat
  height : Nat
deriving DecidableEq, Repr

/-- The fields of `struct roots_view` this module reads and writes. -/
structure roots_view where
  x : Int
  y : Int
  width : Int
  height : Int
  pending_move_resize : pending_move_resize_state
deriving DecidableEq, Repr

/-- The per-surface state record `struct roots_xdg_surface_v6`
(its listener links are modelled separately, see `Listener`). -/
structure roots_xdg_surface_v6 where
  pending_move_resize_configure_serial : Nat
deriving DecidableEq, Repr

/-- Protocol messages this module sends to the client (the
`wlr_xdg_toplevel_v6_set_*` / `wlr_xdg_surface_v6_send_close` calls). -/
inductive Request where
  | set_activated (active : Bool)
  | set_size (width : Nat) (height : Nat)
  | set_maximized (maximized : Bool)
  | set_fullscreen (fullscreen : Bool)
  | send_close_popup (popup : Nat)
  | send_close_toplevel
deriving DecidableEq, Repr

/-- Modelled from the spec: `view_update_position` (rootston view code, not
in this module) applies a position to the View, which the scene/output
layer then consumes. -/
def view_update_position (view : roots_view) (x y : Int) : roots_view :=
  { view with x := x, y := y }

/-- Modelled from the spec: `view_update_size` (rootston view code, not in
this module) publishes the current size to the View. -/
def view_update_size (view : roots_view) (width height : Int) : roots_view :=
  { view with width := width, height := height }

/-- `get_size`: the declared geometry if both dimensions are positive, else
the committed buffer size of the wlr surface if present, else 0x0. -/
def get_size (surface : wlr_xdg_surface_v6) : wlr_box :=
  if surface.geometry.width > 0 ∧ surface.geometry.height > 0 then
    { width := surface.geometry.width, height := surface.geometry.height }
  else
    match surface.wlr_surface_current with
    | some cur => { width := cur.width, height := cur.height }
    | none => { width := 0, height := 0 }

/-- `activate`: issues a `set_activated` configure only when the surface
role is Toplevel. -/
def activate (surface : wlr_xdg_surface_v6) (active : Bool) : List Request :=
  if surface.role = Role.toplevel then [Request.set_activated active] else []

/-- `apply_size_constraints`: clamp a requested size into the toplevel's
current min/max bounds; a max of 0 means unconstrained. Returns
`(dest_width, dest_height)`. -/
def apply_size_constraints (surface : wlr_xdg_surface_v6)
    (width height : Nat) : Nat × Nat :=
  let state := surface.current
  let dest_width :=
    if width < state.min_width then state.min_width
    else if state.max_width > 0 ∧ width > state.max_width then state.max_width
    else width
  let dest_height :=
    if height < state.min_height then state.min_height
    else if state.max_height > 0 ∧ height > state.max_height then
      state.max_height
    else height
  (dest_width, dest_height)

/-- `resize`: no-op unless the role is Toplevel; otherwise constrains the
size and issues a `set_size` configure. -/
def resize (surface : wlr_xdg_surface_v6) (width height : Nat) :
    List Request :=
  if surface.role ≠ Role.toplevel then []
  else
    let c := apply_size_constraints surface width height
    [Request.set_size c.1 c.2]

/-- `move_resize`: no-op unless the role is Toplevel. Computes the anchor
flags from whether the target coordinate differs from the current one,
constrains the size, shifts anchored coordinates by
`(requested - constrained)`, stores the pending record, and issues the
configure. `serial` is the value returned by
`wlr_xdg_toplevel_v6_set_size` (library code outside this module; per the
spec a nonzero serial identifies the configure message issued for the
constrained size and zero means no configure was needed). Returns the
updated view, the updated per-surface record, and the messages sent. -/
def move_resize (view : roots_view) (roots_surface : roots_xdg_surface_v6)
    (surface : wlr_xdg_surface_v6) (x y : Int) (width height : Nat)
    (serial : Nat) :
    roots_view × roots_xdg_surface_v6 × List Request :=
  if surface.role ≠ Role.toplevel then (view, roots_surface, [])
  else
    let update_x : Bool := decide (x ≠ view.x)
    let update_y : Bool := decide (y ≠ view.y)
    let c := apply_size_constraints surface width height
    let constrained_width := c.1
    let constrained_height := c.2
    let x := if update_x then
        x + (width : Int) - (constrained_width : Int)
      else x
    let y := if update_y then
        y + (height : Int) - (constrained_height : Int)
      else y
    let view := { view with pending_move_resize :=
      { update_x := update_x, update_y := update_y, x := x, y := y,
        width := constrained_width, height := constrained_height } }
    let sent := [Request.set_size constrained_width constrained_height]
    if serial > 0 then
      (view,
        { roots_surface with pending_move_resize_configure_serial := serial },
        sent)
    else if roots_surface.pending_move_resize_configure_serial = 0 then
      (view_update_position view x y, roots_surface, sent)
    else
      (view, roots_surface, sent)

/-- `maximize`: no-op unless the role is Toplevel; otherwise forwards the
flag in a configure. -/
def maximize (surface : wlr_xdg_surface_v6) (maximized : Bool) :
    List Request :=
  if surface.role ≠ Role.toplevel then []
  else [Request.set_maximized maximized]

/-- `set_fullscreen`: no-op unless the role is Toplevel; otherwise forwards
the flag in a configure. -/
def set_fullscreen (surface : wlr_xdg_surface_v6) (fullscreen : Bool) :
    List Request :=
  if surface.role ≠ Role.toplevel then []
  else [Request.set_fullscreen fullscreen]

/-- `close`: sends a close request to every popup in `surface->popups`,
then to the surface itself. The C function has no role guard. -/
def close (surface : wlr_xdg_surface_v6) : List Request :=
  surface.popups.map Request.send_close_popup ++ [Request.send_close_toplevel]

/-- `handle_surface_commit`: returns early when unmapped; otherwise
republishes the current size and, while a pending move/resize configure
serial is outstanding and still at least the acknowledged configure
serial, applies the deferred position (per anchored axis,
`target + target_size - committed_size`) and clears the serial exactly
when the acknowledgment equals it. Returns the updated view and
per-surface record. -/
def handle_surface_commit (view : roots_view)
    (roots_surface : roots_xdg_surface_v6) (surface : wlr_xdg_surface_v6) :
    roots_view × roots_xdg_surface_v6 :=
  if ¬ surface.mapped then (view, roots_surface)
  else
    let size := get_size surface
    let view := view_update_size view size.width size.height
    let pending_serial := roots_surface.pending_move_resize_configure_serial
    if pending_serial > 0 ∧ pending_serial ≥ surface.configure_serial then
      let x := if view.pending_move_resize.update_x then
          view.pending_move_resize.x +
            (view.pending_move_resize.width : Int) - size.width
        else view.x
      let y := if view.pending_move_resize.update_y then
          view.pending_move_resize.y +
            (view.pending_move_resize.height : Int) - size.height
        else view.y
      let view := view_update_position view x y
      if pending_serial = surface.configure_serial then
        (view, { roots_surface with
          pending_move_resize_configure_serial := 0 })
      else
        (view, roots_surface)
    else
      (view, roots_surface)

/-- The popup record `struct roots_xdg_popup_v6`: the View it is attached
to (by identifier) and which of its four listener links are currently
registered. -/
structure roots_xdg_popup_v6 where
  view : Nat
  destroy_registered : Bool
  map_registered : Bool
  unmap_registered : Bool
  new_popup_registered : Bool
deriving DecidableEq, Repr

/-- `popup_create` (successful allocation): attaches the popup to `view`
and registers all four listeners (destroy, map, unmap, new_popup). -/
def popup_create (view : Nat) : roots_xdg_popup_v6 :=
  { view := view, destroy_registered := true, map_registered := true,
    unmap_registered := true, new_popup_registered := true }

/-- `popup_destroy`: the registration state at the moment the popup memory
is released. The C function calls `wl_list_remove` on the `destroy` and
`new_popup` links only, then frees the popup. -/
def popup_destroy (popup : roots_xdg_popup_v6) : roots_xdg_popup_v6 :=
  { popup with destroy_registered := false, new_popup_registered := false }

/-- `popup_handle_new_popup`: a nested popup is created against
`popup->view_child.view`, the spawning popup's own attached View. -/
def popup_handle_new_popup (popup : roots_xdg_popup_v6) :
    roots_xdg_popup_v6 :=
  popup_create popup.view

/-- A chain of nested popups: level 0 is the popup created directly for a
toplevel View (`handle_new_popup`), level `n+1` is spawned from level `n`
via `popup_handle_new_popup`. -/
def nested_popup_chain (root : Nat) : Nat → roots_xdg_popup_v6
  | 0 => popup_create root
  | n + 1 => popup_handle_new_popup (nested_popup_chain root n)

/-- The nine listeners `handle_xdg_shell_v6_surface` registers on the
per-surface record, in registration order. -/
inductive Listener where
  | surface_commit
  | destroy
  | map
  | unmap
  | request_move
  | request_resize
  | request_maximize
  | request_fullscreen
  | new_popup
deriving DecidableEq, Repr

/-- Calls made into the view layer by the new-surface handler. -/
inductive ViewEffect where
  | view_maximize (maximized : Bool)
  | view_set_fullscreen (fullscreen : Bool) (output : Option Nat)
deriving DecidableEq, Repr

/-- Observable outcome of `handle_xdg_shell_v6_surface`: which listeners
are still registered when the handler returns, whether the per-surface
record still exists (was not freed), whether a View was created and wired,
and the view-layer calls made, in order. -/
structure new_surface_result where
  registered : List Listener
  roots_surface_allocated : Bool
  view_created : Bool
  effects : List ViewEffect
deriving DecidableEq, Repr

/-- `handle_xdg_shell_v6_surface`: ignores popups; allocates the
per-surface record (dropping the event if `calloc` fails, modelled by
`alloc_ok`); registers the nine listeners; creates the View via
`view_create` (which per the spec may fail under resource exhaustion,
modelled by `view_ok`) — on failure the C code frees the record and
returns without removing any of the nine registrations; on success it
wires the View and applies the client's pending maximized/fullscreen
state. The C asserts the role is not None, so only the Popup and Toplevel
roles are meaningful here. -/
def handle_xdg_shell_v6_surface (surface : wlr_xdg_surface_v6)
    (alloc_ok view_ok : Bool) : new_surface_result :=
  if surface.role = Role.popup then
    { registered := [], roots_surface_allocated := false,
      view_created := false, effects := [] }
  else if ¬ alloc_ok then
    { registered := [], roots_surface_allocated := false,
      view_created := false, effects := [] }
  else
    let nine : List Listener :=
      [Listener.surface_commit, Listener.destroy, Listener.map,
        Listener.unmap, Listener.request_move, Listener.request_resize,
        Listener.request_maximize, Listener.request_fullscreen,
        Listener.new_popup]
    if ¬ view_ok then
      { registered := nine, roots_surface_allocated := false,
        view_created := false, effects := [] }
    else
      { registered := nine, roots_surface_allocated := true,
        view_created := true,
        effects :=
          (if surface.client_pending.maximized then
            [ViewEffect.view_maximize true]
          else []) ++
          (if surface.client_pending.fullscreen then
            [ViewEffect.view_set_fullscreen true none]
          else []) }

/-! ### Concrete fixtures used by witnesses and counterexamples -/

/-- Toplevel state with the given size bounds and no pending flags. -/
def mk_state (minw minh maxw maxh : Nat) : wlr_xdg_toplevel_v6_state :=
  { min_width := minw, min_height := minh, max_width := maxw,
    max_height := maxh, maximized := false, fullscreen := false }

/-- A toplevel surface with the given bounds, acknowledged configure
serial and declared geometry, mapped, with no popups. -/
def mk_surface (st : wlr_xdg_toplevel_v6_state) (serial : Nat)
    (geom : wlr_box) : wlr_xdg_surface_v6 :=
  { role := Role.toplevel, current := st, client_pending := mk_state 0 0 0 0,
    configure_serial := serial, mapped := true, geometry := geom,
    wlr_surface_current := none, popups := [] }

/-- A view at the given position with an empty pending record. -/
def mk_view (x y : Int) : roots_view :=
  { x := x, y := y, width := 0, height := 0,
    pending_move_resize :=
      { update_x := false, update_y := false, x := 0, y := 0,
        width := 0, height := 0 } }

/-! ### C3: the constraint solver stays within declared bounds -/

/-- C3: for well-formed bounds (max = 0 or max ≥ min) on each axis, the
constrained width is at least `min_width`, at most `max_width` when the
latter is positive, and equals the request when the request is already in
bounds; likewise for heights. -/
theorem apply_size_constraints_in_bounds (surface : wlr_xdg_surface_v6)
    (width height : Nat)
    (hw : surface.current.max_width = 0 ∨
      surface.current.min_width ≤ surface.current.max_width)
    (hh : surface.current.max_height = 0 ∨
      surface.current.min_height ≤ surface.current.max_height) :
    (surface.current.min_width ≤
        (apply_size_constraints surface width height).1 ∧
      (0 < surface.current.max_width →
        (apply_size_constraints surface width height).1 ≤
          surface.current.max_width) ∧
      (surface.current.min_width ≤ width →
        (surface.current.max_width = 0 ∨
          width ≤ surface.current.max_width) →
        (apply_size_constraints surface width height).1 = width)) ∧
    (surface.current.min_height ≤
        (apply_size_constraints surface width height).2 ∧
      (0 < surface.current.max_height →
        (apply_size_constraints surface width height).2 ≤
          surface.current.max_height) ∧
      (surface.current.min_height ≤ height →
        (surface.current.max_height = 0 ∨
          height ≤ surface.current.max_height) →
        (apply_size_constraints surface width height).2 = height)) := by
  simp only [apply_size_constraints]
  refine ⟨⟨?_, fun h1 => ?_, fun h1 h2 => ?_⟩,
    ⟨?_, fun h1 => ?_, fun h1 h2 => ?_⟩⟩ <;>
    split_ifs <;> omega

/-- Witness for C3 at bounds min = 2, max = 9 and an in-range request 5×7:
the result is in bounds and equals the request. -/
theorem apply_size_constraints_in_bounds_witness :
    2 ≤ (apply_size_constraints (mk_surface (mk_state 2 2 9 9) 0 ⟨0, 0⟩)
        5 7).1 ∧
    (apply_size_constraints (mk_surface (mk_state 2 2 9 9) 0 ⟨0, 0⟩)
        5 7).1 = 5 ∧
    (apply_size_constraints (mk_surface (mk_state 2 2 9 9) 0 ⟨0, 0⟩)
        5 7).2 = 7 := by
  have h := apply_size_constraints_in_bounds
    (mk_surface (mk_state 2 2 9 9) 0 ⟨0, 0⟩) 5 7
    (Or.inr (by decide)) (Or.inr (by decide))
  exact ⟨h.1.1, h.1.2.2 (by decide) (Or.inr (by decide)),
    h.2.2.2 (by decide) (Or.inr (by decide))⟩

/-! ### C4: idempotence of the constraint solver -/

/-- Counterexample to C4 as stated: with `min_width = 10` and
`max_width = 5` (a minimum exceeding a positive maximum), requesting width
3 first clamps up to 10, and constraining that output again clamps it down
to 5, so the solver is not idempotent on such bounds. -/
theorem apply_size_constraints_not_idempotent :
    apply_size_constraints (mk_surface (mk_state 10 0 5 0) 0 ⟨0, 0⟩)
      (apply_size_constraints (mk_surface (mk_state 10 0 5 0) 0 ⟨0, 0⟩)
        3 3).1
      (apply_size_constraints (mk_surface (mk_state 10 0 5 0) 0 ⟨0, 0⟩)
        3 3).2 ≠
    apply_size_constraints (mk_surface (mk_state 10 0 5 0) 0 ⟨0, 0⟩)
      3 3 := by
  decide

/-- C4 amended: the constraint solver is idempotent whenever the declared
bounds are well-formed on each axis (max = 0 or max ≥ min); it is not
idempotent in general (see the counterexample with min 10, max 5). -/
theorem apply_size_constraints_idempotent (surface : wlr_xdg_surface_v6)
    (width height : Nat)
    (hw : surface.current.max_width = 0 ∨
      surface.current.min_width ≤ surface.current.max_width)
    (hh : surface.current.max_height = 0 ∨
      surface.current.min_height ≤ surface.current.max_height) :
    apply_size_constraints surface
      (apply_size_constraints surface width height).1
      (apply_size_constraints surface width height).2 =
    apply_size_constraints surface width height := by
  simp only [apply_size_constraints]
  refine Prod.ext ?_ ?_ <;> simp only [] <;> split_ifs <;> omega

/-- Witness for the amended C4 at bounds min = 2, max = 9 with request
20×1: constraining twice equals constraining once. -/
theorem apply_size_constraints_idempotent_witness :
    apply_size_constraints (mk_surface (mk_state 2 2 9 9) 0 ⟨0, 0⟩)
      (apply_size_constraints (mk_surface (mk_state 2 2 9 9) 0 ⟨0, 0⟩)
        20 1).1
      (apply_size_constraints (mk_surface (mk_state 2 2 9 9) 0 ⟨0, 0⟩)
        20 1).2 =
    apply_size_constraints (mk_surface (mk_state 2 2 9 9) 0 ⟨0, 0⟩)
      20 1 :=
  apply_size_constraints_idempotent (mk_surface (mk_state 2 2 9 9) 0 ⟨0, 0⟩)
    20 1 (Or.inr (by decide)) (Or.inr (by decide))

/-! ### C1: which commits apply the deferred position -/

/-- View fixture for the C1 counterexample: at the origin, with a pending
record anchoring the x axis at target x = 0, target width = 100. -/
def c1_view : roots_view :=
  { x := 0, y := 0, width := 0, height := 0,
    pending_move_resize :=
      { update_x := true, update_y := false, x := 0, y := 0,
        width := 100, height := 0 } }

/-- Counterexample to C1 as stated: expected serial 5 is outstanding, the
client has acknowledged serial 7 (so `acked ≥ expected` holds and the
claim demands the deferred position 0 + 100 − 90 = 10 be applied), yet the
commit handler leaves the position untouched, because the code's guard is
`pending_serial >= surface->configure_serial` (expected ≥ acked), which
fails here. -/
theorem handle_surface_commit_skips_greater_ack :
    0 < (roots_xdg_surface_v6.mk 5).pending_move_resize_configure_serial ∧
    (roots_xdg_surface_v6.mk 5).pending_move_resize_configure_serial ≤
      (mk_surface (mk_state 0 0 0 0) 7 ⟨90, 90⟩).configure_serial ∧
    (mk_surface (mk_state 0 0 0 0) 7 ⟨90, 90⟩).mapped = true ∧
    c1_view.pending_move_resize.update_x = true ∧
    (handle_surface_commit c1_view (roots_xdg_surface_v6.mk 5)
        (mk_surface (mk_state 0 0 0 0) 7 ⟨90, 90⟩)).1.x ≠
      c1_view.pending_move_resize.x +
        (c1_view.pending_move_resize.width : Int) -
        (get_size (mk_surface (mk_state 0 0 0 0) 7 ⟨90, 90⟩)).width := by
  decide

/-- C1 amended: on a commit while mapped, if the expected serial is
nonzero and the acknowledged configure serial is at most the expected
serial (the code's guard is `expected ≥ acked`, not `acked ≥ expected`),
the deferred pending position is applied: on each axis whose update flag
is true the position becomes `target_position + (target_size −
committed_size)`, and on an axis whose flag is false it keeps its old
value. -/
theorem handle_surface_commit_applies_pending (view : roots_view)
    (rs : roots_xdg_surface_v6) (surface : wlr_xdg_surface_v6)
    (hm : surface.mapped = true)
    (hp : 0 < rs.pending_move_resize_configure_serial)
    (hle : surface.configure_serial ≤
      rs.pending_move_resize_configure_serial) :
    (handle_surface_commit view rs surface).1.x =
      (if view.pending_move_resize.update_x then
        view.pending_move_resize.x +
          (view.pending_move_resize.width : Int) - (get_size surface).width
      else view.x) ∧
    (handle_surface_commit view rs surface).1.y =
      (if view.pending_move_resize.update_y then
        view.pending_move_resize.y +
          (view.pending_move_resize.height : Int) - (get_size surface).height
      else view.y) := by
  simp only [handle_surface_commit, view_update_size, view_update_position,
    hm, Bool.not_eq_true, Bool.true_eq_false, if_false]
  split_ifs <;> simp_all

/-- Witness for the amended C1: expected serial 5, acknowledged serial 3,
committed size 90×90, x axis anchored at target 0 with target width 100:
the applied x is 0 + 100 − 90 = 10. -/
theorem handle_surface_commit_applies_pending_witness :
    (handle_surface_commit c1_view (roots_xdg_surface_v6.mk 5)
        (mk_surface (mk_state 0 0 0 0) 3 ⟨90, 90⟩)).1.x = 10 ∧
    (handle_surface_commit c1_view (roots_xdg_surface_v6.mk 5)
        (mk_surface (mk_state 0 0 0 0) 3 ⟨90, 90⟩)).1.y = 0 := by
  have h := handle_surface_commit_applies_pending c1_view
    (roots_xdg_surface_v6.mk 5) (mk_surface (mk_state 0 0 0 0) 3 ⟨90, 90⟩)
    (by decide) (by decide) (by decide)
  refine ⟨?_, ?_⟩
  · rw [h.1]; decide
  · rw [h.2]; decide

/-! ### C2: the ticket clears exactly on an equal acknowledgment -/

/-- C2: on a commit processed while mapped with a nonzero expected serial,
the ticket is cleared (reset to zero) iff the acknowledged configure
serial equals the expected serial; otherwise — in particular whenever the
acknowledgment is strictly greater — the per-surface record is left
unchanged, keeping the ticket open. -/
theorem handle_surface_commit_clears_iff (view : roots_view)
    (rs : roots_xdg_surface_v6) (surface : wlr_xdg_surface_v6)
    (hm : surface.mapped = true)
    (hp : 0 < rs.pending_move_resize_configure_serial) :
    ((handle_surface_commit view rs
        surface).2.pending_move_resize_configure_serial = 0 ↔
      surface.configure_serial = rs.pending_move_resize_configure_serial) ∧
    (surface.configure_serial ≠ rs.pending_move_resize_configure_serial →
      (handle_surface_commit view rs surface).2 = rs) := by
  simp only [handle_surface_commit, view_update_size, view_update_position,
    hm, Bool.not_eq_true, Bool.true_eq_false, if_false]
  split_ifs <;> constructor <;> simp_all <;> omega

/-- Witness for C2: with expected serial 5 and acknowledged serial 7
(strictly greater), the ticket stays at 5 and is not cleared. -/
theorem handle_surface_commit_clears_iff_witness :
    (handle_surface_commit c1_view (roots_xdg_surface_v6.mk 5)
        (mk_surface (mk_state 0 0 0 0) 7 ⟨90, 90⟩)).2 =
      roots_xdg_surface_v6.mk 5 := by
  have h := handle_surface_commit_clears_iff c1_view
    (roots_xdg_surface_v6.mk 5) (mk_surface (mk_state 0 0 0 0) 7 ⟨90, 90⟩)
    (by decide) (by decide)
  exact h.2 (by decide)

/-! ### C5: anchored move_resize shifts the target position -/

/-- C5: on a toplevel, with the x axis anchored (requested x differs from
the current x) and a nonzero configure serial issued, `move_resize` stores
the pending target `x + (requested_width − constrained_width)` and records
the serial; a subsequent mapped commit acknowledging exactly that serial
at the constrained width applies precisely that x. -/
theorem move_resize_anchored_shift (view : roots_view)
    (rs : roots_xdg_surface_v6) (surface surface2 : wlr_xdg_surface_v6)
    (x y : Int) (width height serial : Nat)
    (hrole : surface.role = Role.toplevel)
    (hx : x ≠ view.x)
    (hs : 0 < serial)
    (hm : surface2.mapped = true)
    (hack : surface2.configure_serial = serial)
    (hsize : (get_size surface2).width =
      ((apply_size_constraints surface width height).1 : Int)) :
    (move_resize view rs surface x y width height
        serial).1.pending_move_resize.x =
      x + (width : Int) -
        ((apply_size_constraints surface width height).1 : Int) ∧
    (move_resize view rs surface x y width height
        serial).2.1.pending_move_resize_configure_serial = serial ∧
    (handle_surface_commit
        (move_resize view rs surface x y width height serial).1
        (move_resize view rs surface x y width height serial).2.1
        surface2).1.x =
      x + (width : Int) -
        ((apply_size_constraints surface width height).1 : Int) := by
  have h1 : ¬ (surface.role ≠ Role.toplevel) := by simp [hrole]
  have hxd : decide (x ≠ view.x) = true := by simp [hx]
  simp only [move_resize, if_neg h1, hxd, if_true, hack,
    handle_surface_commit, view_update_size, view_update_position, hm,
    Bool.not_eq_true, Bool.true_eq_false, if_false]
  split_ifs <;> simp_all

/-- Witness for C5, the spec scenario: `move_resize(x=10, y=0, width=200,
height=50)` with `min_width = 300`, current position (0, 0) (so the x axis
is anchored), configure serial 1; the constrained width is 300, the stored
and applied x is 10 + (200 − 300) = −90 once the client acknowledges
serial 1 and commits at 300×50. -/
theorem move_resize_anchored_shift_witness :
    ((apply_size_constraints (mk_surface (mk_state 300 0 0 0) 0 ⟨0, 0⟩)
        200 50).1 = 300) ∧
    (move_resize (mk_view 0 0) (roots_xdg_surface_v6.mk 0)
        (mk_surface (mk_state 300 0 0 0) 0 ⟨0, 0⟩) 10 0 200 50
        1).1.pending_move_resize.x = -90 ∧
    (handle_surface_commit
        (move_resize (mk_view 0 0) (roots_xdg_surface_v6.mk 0)
          (mk_surface (mk_state 300 0 0 0) 0 ⟨0, 0⟩) 10 0 200 50 1).1
        (move_resize (mk_view 0 0) (roots_xdg_surface_v6.mk 0)
          (mk_surface (mk_state 300 0 0 0) 0 ⟨0, 0⟩) 10 0 200 50 1).2.1
        (mk_surface (mk_state 300 0 0 0) 1 ⟨300, 50⟩)).1.x = -90 := by
  have h := move_resize_anchored_shift (mk_view 0 0)
    (roots_xdg_surface_v6.mk 0) (mk_surface (mk_state 300 0 0 0) 0 ⟨0, 0⟩)
    (mk_surface (mk_state 300 0 0 0) 1 ⟨300, 50⟩) 10 0 200 50 1
    (by decide) (by decide) (by decide) (by decide) (by decide) (by decide)
  refine ⟨by decide, ?_, ?_⟩
  · rw [h.1]; decide
  · rw [h.2.2]; decide

/-! ### C6: role guards on the View Adapter operations -/

/-- Surface fixture for C6: a surface whose role is Popup, with one
popup entry in its popup list. -/
def c6_surface : wlr_xdg_surface_v6 :=
  { role := Role.popup, current := mk_state 0 0 0 0,
    client_pending := mk_state 0 0 0 0, configure_serial := 0,
    mapped := true, geometry := ⟨0, 0⟩, wlr_surface_current := none,
    popups := [0] }

/-- Counterexample to C6 as stated: `close` invoked on a View whose
surface role is Popup (not Toplevel) still sends protocol messages — a
close request to each listed popup and to the surface itself — because
the C `close` has no role guard, unlike the other five operations. -/
theorem close_sends_without_role_guard :
    c6_surface.role ≠ Role.toplevel ∧ close c6_surface ≠ [] := by
  decide

/-- C6 amended: on a View whose surface role is not Toplevel, the
operations activate, resize, move_resize, maximize and set_fullscreen
modify no state and send no protocol message; `close`, however, has no
role guard and sends its close requests (one per listed popup, then one
for the surface) regardless of role. -/
theorem non_toplevel_ops_are_noops (view : roots_view)
    (rs : roots_xdg_surface_v6) (surface : wlr_xdg_surface_v6)
    (x y : Int) (width height serial : Nat) (a m f : Bool)
    (hrole : surface.role ≠ Role.toplevel) :
    activate surface a = [] ∧
    resize surface width height = [] ∧
    move_resize view rs surface x y width height serial = (view, rs, []) ∧
    maximize surface m = [] ∧
    set_fullscreen surface f = [] ∧
    close surface =
      surface.popups.map Request.send_close_popup ++
        [Request.send_close_toplevel] := by
  simp [activate, resize, move_resize, maximize, set_fullscreen, close,
    hrole]

/-- Witness for the amended C6 on the Popup-role fixture: the five guarded
operations do nothing and close still emits two close requests. -/
theorem non_toplevel_ops_are_noops_witness :
    activate c6_surface true = [] ∧
    resize c6_surface 10 10 = [] ∧
    move_resize (mk_view 0 0) (roots_xdg_surface_v6.mk 0) c6_surface
      1 2 10 10 1 = (mk_view 0 0, roots_xdg_surface_v6.mk 0, []) ∧
    maximize c6_surface true = [] ∧
    set_fullscreen c6_surface true = [] ∧
    close c6_surface =
      [Request.send_close_popup 0, Request.send_close_toplevel] :=
  have h := non_toplevel_ops_are_noops (mk_view 0 0)
    (roots_xdg_surface_v6.mk 0) c6_surface 1 2 10 10 1 true true true
    (by decide)
  ⟨h.1, h.2.1, h.2.2.1, h.2.2.2.1, h.2.2.2.2.1, h.2.2.2.2.2⟩

/-! ### C7: popup destruction and its listener registrations -/

/-- Evaluation of the code at C7's failing input: destroying a popup that
was fully constructed by `popup_create` removes only the destroy and
new_popup listener links; the map and unmap listeners registered at
creation are still registered when the popup memory is freed, contrary to
the claim that all four registrations are removed. -/
theorem popup_destroy_leaves_map_unmap_registered :
    (popup_destroy (popup_create 0)).destroy_registered = false ∧
    (popup_destroy (popup_create 0)).new_popup_registered = false ∧
    (popup_destroy (popup_create 0)).map_registered = true ∧
    (popup_destroy (popup_create 0)).unmap_registered = true := by
  decide

/-! ### C8: allocation failure while creating a View -/

/-- Evaluation of the code at C8's failing input: with the per-surface
record allocated and the nine listeners registered, a `view_create`
failure makes the handler free the record and drop the event, but none of
the nine listener registrations is rolled back — they all remain
registered and refer to the freed record, contrary to the claim. -/
theorem new_surface_view_failure_keeps_listeners :
    (handle_xdg_shell_v6_surface (mk_surface (mk_state 0 0 0 0) 0 ⟨0, 0⟩)
        true false).view_created = false ∧
    (handle_xdg_shell_v6_surface (mk_surface (mk_state 0 0 0 0) 0 ⟨0, 0⟩)
        true false).roots_surface_allocated = false ∧
    (handle_xdg_shell_v6_surface (mk_surface (mk_state 0 0 0 0) 0 ⟨0, 0⟩)
        true false).registered =
      [Listener.surface_commit, Listener.destroy, Listener.map,
        Listener.unmap, Listener.request_move, Listener.request_resize,
        Listener.request_maximize, Listener.request_fullscreen,
        Listener.new_popup] := by
  decide

/-! ### C9: nested popups attach to the original toplevel View -/

/-- C9: a popup spawned from an existing popup is attached to exactly the
View the spawning popup is attached to, and therefore every popup in a
chain of nested spawns is attached to the original toplevel View the
chain started from, never to the popup that spawned it. -/
theorem nested_popup_attaches_to_root (p : roots_xdg_popup_v6)
    (root n : Nat) :
    (popup_handle_new_popup p).view = p.view ∧
    (nested_popup_chain root n).view = root := by
  refine ⟨rfl, ?_⟩
  induction n with
  | zero => rfl
  | succ n ih =>
    simpa [nested_popup_chain, popup_handle_new_popup, popup_create]
      using ih

/-! ### C10: client-pending state applied at creation -/

/-- Surface fixture for the C10 witness: a toplevel whose client already
requested both the maximized and the fullscreen state. -/
def c10_surface : wlr_xdg_surface_v6 :=
  { mk_surface (mk_state 0 0 0 0) 0 ⟨0, 0⟩ with
    client_pending :=
      { min_width := 0, min_height := 0, max_width := 0, max_height := 0,
        maximized := true, fullscreen := true } }

/-- C10: when a new toplevel surface is wired up successfully, a pending
client request for the maximized state is applied immediately at creation
(`view_maximize` with true), and a pending fullscreen request is applied
with true and no specific output — within the creation handler itself,
hence before any commit or map is processed. -/
theorem new_surface_applies_client_pending (surface : wlr_xdg_surface_v6)
    (hrole : surface.role = Role.toplevel) :
    (surface.client_pending.maximized = true →
      ViewEffect.view_maximize true ∈
        (handle_xdg_shell_v6_surface surface true true).effects) ∧
    (surface.client_pending.fullscreen = true →
      ViewEffect.view_set_fullscreen true none ∈
        (handle_xdg_shell_v6_surface surface true true).effects) ∧
    (handle_xdg_shell_v6_surface surface true true).view_created = true := by
  have hp : surface.role ≠ Role.popup := by simp [hrole]
  refine ⟨fun hmax => ?_, fun hfs => ?_, ?_⟩
  · simp [handle_xdg_shell_v6_surface, hp, hmax]
  · simp [handle_xdg_shell_v6_surface, hp, hfs]
  · simp [handle_xdg_shell_v6_surface, hp]

/-- Witness for C10: on a toplevel with both client-pending flags set, the
creation handler emits both view calls. -/
theorem new_surface_applies_client_pending_witness :
    ViewEffect.view_maximize true ∈
      (handle_xdg_shell_v6_surface c10_surface true true).effects ∧
    ViewEffect.view_set_fullscreen true none ∈
      (handle_xdg_shell_v6_surface c10_surface true true).effects :=
  have h := new_surface_applies_client_pending c10_surface (by decide)
  ⟨h.1 (by decide), h.2.1 (by decide)⟩

end XdgShellV6
